import Mathlib

/-
Shallow embedding of the chat-server repository's session/token core.

Conventions:
- `datetime` values are modelled as `Nat` seconds since an arbitrary epoch;
  `timedelta(days=d)` is `d * 86400` and `timedelta(minutes=m)` is `m * 60`.
- A signed JWT is modelled as its payload plus the secret it was signed with:
  `jwt.encode(payload, secret)` yields `⟨payload, secret⟩`, and
  `jwt.decode(tok, secret)` succeeds exactly when the stored secret matches
  (bad signature and malformed input both surface as `InvalidTokenError`,
  which is what PyJWT raises for either).
- The bcrypt credential primitive (passlib) is external to the core; it is
  modelled as an injective tagging function, which preserves exactly the
  verify/hash contract the code relies on.
- Fallible routes return `Except HTTPException _`; database state is passed
  explicitly as an `AppState` value.
-/

namespace ChatServer

/-- Embeds `core/config.py` `Settings`: the configuration fields the token code reads,
with the source's environment-variable defaults. -/
structure Settings where
  SECRET_KEY : String
  ACCESS_TOKEN_EXPIRE_MINUTES : Nat
  REFRESH_INACTIVITY_DAYS : Nat
  deriving Repr, DecidableEq

def defaultSettings : Settings :=
  { SECRET_KEY := "dev-secret"
    ACCESS_TOKEN_EXPIRE_MINUTES := 15
    REFRESH_INACTIVITY_DAYS := 30 }

def secondsPerDay : Nat := 86400

def secondsPerMinute : Nat := 60

/-- A decoded JWT payload: the claims the source puts into its tokens
(`sub`, `type`, optional `jti`, `iat`, `exp`). -/
structure JwtPayload where
  sub : String
  type : String
  jti : Option String
  iat : Nat
  exp : Nat
  deriving Repr, DecidableEq

/-- A signed token: payload plus the signing secret (see header comment). -/
structure Jwt where
  payload : JwtPayload
  sig : String
  deriving Repr, DecidableEq

/-- Embeds `jwt.encode(payload, secret, algorithm="HS256")`. -/
def jwt_encode (secret : String) (p : JwtPayload) : Jwt := ⟨p, secret⟩

/-- PyJWT's two decode-failure classes that `decode_token` distinguishes:
`ExpiredSignatureError` (a subclass of `InvalidTokenError`, caught first)
and every other `InvalidTokenError` (bad signature / malformed). -/
inductive PyJwtError
  | expiredSignature
  | invalidToken
  deriving Repr, DecidableEq

/-- Embeds `jwt.decode(token, secret, algorithms=["HS256"])`: signature check first,
then the `exp` claim (a token whose expiry has passed is rejected). -/
def jwt_decode (secret : String) (now : Nat) (t : Jwt) : Except PyJwtError JwtPayload :=
  if t.sig = secret then
    if t.payload.exp ≤ now then .error .expiredSignature
    else .ok t.payload
  else .error .invalidToken

/-- The two failure kinds `core/security.py decode_token` re-raises:
`ValueError("Expired token")` and `ValueError("Invalid token")`. -/
inductive DecodeError
  | expiredToken
  | invalidToken
  deriving Repr, DecidableEq

/-- The message carried by the `ValueError` that `decode_token` raises for
each failure kind. -/
def DecodeError.message : DecodeError → String
  | .expiredToken => "Expired token"
  | .invalidToken => "Invalid token"

/-- Embeds `core/security.py decode_token`: decode with the shared secret, mapping
`ExpiredSignatureError` to `ValueError("Expired token")` and
`InvalidTokenError` to `ValueError("Invalid token")`. -/
def decode_token (cfg : Settings) (now : Nat) (t : Jwt) : Except DecodeError JwtPayload :=
  match jwt_decode cfg.SECRET_KEY now t with
  | .ok p => .ok p
  | .error .expiredSignature => .error .expiredToken
  | .error .invalidToken => .error .invalidToken

/-- Embeds `core/security.py create_access_token`. -/
def create_access_token (cfg : Settings) (now : Nat) (sub : String) : Jwt :=
  jwt_encode cfg.SECRET_KEY
    { sub := sub
      type := "access"
      jti := none
      iat := now
      exp := now + cfg.ACCESS_TOKEN_EXPIRE_MINUTES * secondsPerMinute }

/-- Embeds `core/security.py create_refresh_token`: returns `(token, jti, exp)`.
The `jti` is `str(uuid.uuid4())` in the source; the fresh random value is
supplied here as the argument `jti`. -/
def create_refresh_token (cfg : Settings) (now : Nat) (sub : String) (jti : String) :
    Jwt × String × Nat :=
  let exp := now + cfg.REFRESH_INACTIVITY_DAYS * secondsPerDay
  (jwt_encode cfg.SECRET_KEY
    { sub := sub, type := "refresh", jti := some jti, iat := now, exp := exp },
   jti, exp)

/-- The source `hash_password` delegates to passlib bcrypt; modelled as an injective tag. -/
def hash_password (password : String) : String := "bcrypt$" ++ password

/-- The source `verify_password` delegates to passlib bcrypt: true exactly when the hash
was produced from this password. -/
def verify_password (password passwordHash : String) : Bool :=
  passwordHash = hash_password password

/-- Embeds the `db/models.py User` row. The soft-delete flag is referenced by
`src/routes/auth_routes.py list_users` (`User.is_deleted`) whose `models`
module is not under `src/`; modelled from the spec: Identity carries a
soft-delete flag. -/
structure User where
  id : Nat
  name : String
  mobile : String
  password_hash : String
  age : Option Int
  gender : Option String
  created_at : Nat
  last_login_at : Option Nat
  last_activity_at : Nat
  last_logout_at : Option Nat
  is_deleted : Bool
  deriving Repr, DecidableEq

/-- Embeds the `db/models.py RefreshToken` row (the persisted refresh-token record). -/
structure RefreshToken where
  id : Nat
  jti : String
  token : Jwt
  user_id : Nat
  expires_at : Nat
  session_id : String
  parent_jti : Option String
  issued_at : Nat
  last_used_at : Nat
  revoked : Bool
  created_at : Nat
  deriving Repr, DecidableEq

/-- The relational store the routes read and write: the `users` and
`refresh_tokens` tables. -/
structure AppState where
  users : List User
  refresh_tokens : List RefreshToken
  deriving Repr, DecidableEq

/-- Embeds `fastapi.HTTPException`: status code and detail string. -/
structure HTTPException where
  status_code : Nat
  detail : String
  deriving Repr, DecidableEq

/-- Embeds `routes/auth_routes.py TokenResponse`. -/
structure TokenResponse where
  access_token : Jwt
  refresh_token : Jwt
  token_type : String
  deriving Repr, DecidableEq

/-- Embeds the `routes/auth_routes.py` module-level settings (env defaults). -/
def auth_SECRET_KEY : String := "change-this-secret"

def auth_ACCESS_TOKEN_EXPIRE_MINUTES : Nat := 15

def REFRESH_TOKEN_EXPIRE_DAYS : Nat := 7

/-- Embeds `routes/auth_routes.py make_access_token`. -/
def make_access_token (now : Nat) (sub : String) : Jwt :=
  jwt_encode auth_SECRET_KEY
    { sub := sub
      type := "access"
      jti := none
      iat := now
      exp := now + auth_ACCESS_TOKEN_EXPIRE_MINUTES * secondsPerMinute }

/-- Embeds `routes/auth_routes.py make_refresh_token`: a stateless refresh JWT with
no `jti` claim (the payload is only `sub`, `type`, `iat`, `exp`). -/
def make_refresh_token (now : Nat) (sub : String) : Jwt :=
  jwt_encode auth_SECRET_KEY
    { sub := sub
      type := "refresh"
      jti := none
      iat := now
      exp := now + REFRESH_TOKEN_EXPIRE_DAYS * secondsPerDay }

/-- Python's `str.strip()`: drop leading and trailing whitespace. -/
def pyStrip (s : String) : String :=
  ⟨((s.data.dropWhile Char.isWhitespace).reverse.dropWhile Char.isWhitespace).reverse⟩

/-- The regex `^\+\d{8,15}$` from `routes/auth_routes.py` (`E164`). -/
def isE164 (s : String) : Bool :=
  match s.data with
  | [] => false
  | c :: rest =>
    c = '+' && decide (8 ≤ rest.length) && decide (rest.length ≤ 15)
      && rest.all Char.isDigit

/-- Embeds `routes/auth_routes.py LoginRequest` after pydantic validation. -/
structure LoginRequest where
  mobile : String
  password : String
  confirm_password : String
  deriving Repr, DecidableEq

/-- The pydantic validation of `LoginRequest`: `mobile` is trimmed and must
match E.164, and `confirm_password` must equal `password`. Pydantic
aggregates field errors; validity is unchanged by returning the first
failing validator's message here. -/
def validate_LoginRequest (mobile password confirm_password : String) :
    Except String LoginRequest :=
  let m := pyStrip mobile
  if isE164 m = false then .error "mobile must be E.164 like +14155552671"
  else if confirm_password ≠ password then
    .error "confirm_password must match password"
  else .ok { mobile := m, password := password, confirm_password := confirm_password }

/-- Embeds `routes/auth_routes.py login` (the handler body, after request
validation): look up the user by mobile; `if not user or not
verify_password(...)` raise 401 "Invalid credentials"; else stamp
`last_login_at` and return a fresh access/refresh pair. -/
def login (s : AppState) (now : Nat) (payload : LoginRequest) :
    Except HTTPException (TokenResponse × AppState) :=
  match s.users.find? (fun u => u.mobile == payload.mobile) with
  | none => .error ⟨401, "Invalid credentials"⟩
  | some user =>
    if verify_password payload.password user.password_hash then
      let users' := s.users.map fun u =>
        if u.id == user.id then { u with last_login_at := some now } else u
      .ok ({ access_token := make_access_token now (toString user.id)
             refresh_token := make_refresh_token now (toString user.id)
             token_type := "bearer" },
           { s with users := users' })
    else .error ⟨401, "Invalid credentials"⟩

/-- The `/auth/login` route end to end: pydantic validation of the three
request fields (a validation failure is FastAPI's 422 response, carrying the
validator's message), then the handler. -/
def login_route (s : AppState) (now : Nat) (mobile password confirm_password : String) :
    Except HTTPException (TokenResponse × AppState) :=
  match validate_LoginRequest mobile password confirm_password with
  | .error msg => .error ⟨422, msg⟩
  | .ok req => login s now req

/-- Embeds `routes/message_routes.py user_from_token`: decode the token, require
`type == "access"`, resolve the user by `mobile == sub`, then bump
`last_activity_at` and `db.commit()` — all inside one `try` whose blanket
`except` raises `HTTPException(401, "Invalid or expired token")`.
`commitOk` models whether the `db.commit()` write succeeds; when it raises,
the same blanket `except` turns the valid request into the 401. -/
def user_from_token (cfg : Settings) (commitOk : Bool) (now : Nat) (tok : Jwt)
    (s : AppState) : Except HTTPException (User × AppState) :=
  match decode_token cfg now tok with
  | .error _ => .error ⟨401, "Invalid or expired token"⟩
  | .ok p =>
    if p.type ≠ "access" then .error ⟨401, "Invalid or expired token"⟩
    else
      match s.users.find? (fun u => u.mobile == p.sub) with
      | none => .error ⟨401, "Invalid or expired token"⟩
      | some user =>
        if commitOk then
          .ok ({ user with last_activity_at := now },
               { s with users := s.users.map fun u =>
                   if u.id == user.id then { u with last_activity_at := now } else u })
        else .error ⟨401, "Invalid or expired token"⟩

/-- Embeds `sockets/chat_manager.py ConnectionManager.active`, a `Dict[int,
WebSocket]`: modelled as an association list with Python-dict semantics
(update in place when the key exists, append otherwise); channels are
identified by `Nat`. -/
structure ConnectionManager where
  active : List (Nat × Nat)
  deriving Repr, DecidableEq

/-- Embeds `self.active[user_id] = websocket` on a Python dict: replace the value in
place when the key is present, append the binding otherwise. -/
def dictInsert (l : List (Nat × Nat)) (k v : Nat) : List (Nat × Nat) :=
  if l.any (fun p => p.fst == k) then
    l.map fun p => if p.fst == k then (k, v) else p
  else l ++ [(k, v)]

/-- Embeds `self.active.get(user_id)` on a Python dict. -/
def dictGet (l : List (Nat × Nat)) (k : Nat) : Option Nat :=
  (l.find? (fun p => p.fst == k)).map Prod.snd

/-- Embeds `ConnectionManager.connect`: accept the socket and store it under the
identity, replacing any previous channel of that identity. -/
def connect (m : ConnectionManager) (websocket : Nat) (user_id : Nat) :
    ConnectionManager :=
  { active := dictInsert m.active user_id websocket }

/-- Embeds `ConnectionManager.disconnect`: `self.active.pop(user_id, None)`. -/
def disconnect (m : ConnectionManager) (user_id : Nat) : ConnectionManager :=
  { active := m.active.filter fun p => !(p.fst == user_id) }

/-- Embeds `ConnectionManager.send_personal`: look up the identity's channel and
send to it if present. Returns the channel the payload was written to
(`none` means the send silently did nothing). -/
def send_personal (m : ConnectionManager) (user_id : Nat) : Option Nat :=
  match dictGet m.active user_id with
  | some ws => some ws
  | none => none

/-- The user-facing failures of the refresh operation (spec §7): a rejected
token (unknown / revoked / undecodable) and a lapsed sliding window. -/
inductive RefreshError
  | refreshRejected
  | refreshExpired
  deriving Repr, DecidableEq

/-- Modelled from the spec: the refresh (rotate) endpoint is absent from
`src/` — only the `RefreshToken` model (`db/models.py`) and the `RefreshIn`
schema (`db/schemas.py`) are present. Spec §4.2 Rotate: decode the presented
token (codec failures propagate as `RefreshRejected`); look up the record by
`jti`, rejecting when not found or already revoked; reject with
`RefreshExpired` when `now >= expires_at` (inclusive boundary); otherwise
atomically revoke the old record (stamping `last_used_at`) and create one
child record with `parent_jti = old.jti`, the same `session_id`, and
`expires_at = now + inactivityWindow`, minting a fresh token pair via
`create_access_token` / `create_refresh_token` from `core/security.py`.
`freshJti` stands for the new record's `uuid4` identifier. -/
def refresh (cfg : Settings) (s : AppState) (now : Nat) (freshJti : String)
    (tok : Jwt) : Except RefreshError (TokenResponse × AppState) :=
  match decode_token cfg now tok with
  | .error _ => .error .refreshRejected
  | .ok p =>
    match p.jti with
    | none => .error .refreshRejected
    | some j =>
      match s.refresh_tokens.find? (fun r => r.jti == j) with
      | none => .error .refreshRejected
      | some r =>
        if r.revoked then .error .refreshRejected
        else if r.expires_at ≤ now then .error .refreshExpired
        else
          let minted := create_refresh_token cfg now p.sub freshJti
          let newRec : RefreshToken :=
            { id := s.refresh_tokens.length + 1
              jti := minted.snd.fst
              token := minted.fst
              user_id := r.user_id
              expires_at := minted.snd.snd
              session_id := r.session_id
              parent_jti := some r.jti
              issued_at := now
              last_used_at := now
              revoked := false
              created_at := now }
          let rts := s.refresh_tokens.map fun x =>
            if x.jti == r.jti then { x with revoked := true, last_used_at := now } else x
          .ok ({ access_token := create_access_token cfg now p.sub
                 refresh_token := minted.fst
                 token_type := "bearer" },
               { s with refresh_tokens := rts ++ [newRec] })

/-- The acknowledgment logout always returns (spec §6: `logout(refreshToken)
-> Ack`). -/
inductive Ack
  | ack
  deriving Repr, DecidableEq

/-- Modelled from the spec: the logout endpoint is absent from `src/`. Spec
§4.2 Logout: decode the refresh token and require kind `refresh`; resolve its
record by `jti`; if found, revoke every record sharing that `session_id` and
stamp the identity's `last_logout_at = now`; in every case — undecodable
token, wrong kind, unknown `jti` — return success (idempotent logout that
never leaks token validity). -/
def logout (cfg : Settings) (s : AppState) (now : Nat) (tok : Jwt) :
    Ack × AppState :=
  match decode_token cfg now tok with
  | .error _ => (.ack, s)
  | .ok p =>
    if p.type ≠ "refresh" then (.ack, s)
    else
      match p.jti with
      | none => (.ack, s)
      | some j =>
        match s.refresh_tokens.find? (fun r => r.jti == j) with
        | none => (.ack, s)
        | some r =>
          (.ack,
           { users := s.users.map fun u =>
               if u.id == r.user_id then { u with last_logout_at := some now } else u
             refresh_tokens := s.refresh_tokens.map fun x =>
               if x.session_id == r.session_id then { x with revoked := true } else x })

/-- Whether an `Except` result is a success. -/
def exOk {ε α : Type} : Except ε α → Bool
  | .ok _ => true
  | .error _ => false

/-- The state produced by a refresh result (`d` when the call failed). -/
def refreshState (d : AppState) : Except RefreshError (TokenResponse × AppState) → AppState
  | .ok pr => pr.snd
  | .error _ => d

/-- The state produced by a login result (`d` when the call failed). -/
def loginState (d : AppState) : Except HTTPException (TokenResponse × AppState) → AppState
  | .ok pr => pr.snd
  | .error _ => d

/-- The token pair produced by a successful login, if any. -/
def loginResp : Except HTTPException (TokenResponse × AppState) → Option TokenResponse
  | .ok pr => some pr.fst
  | .error _ => none

/-! Concrete instances used to exercise the operations on closed inputs. -/

/-- A refresh token minted at time 0 for subject `u1` with `jti = "j1"`. -/
def refreshJwt1 : Jwt := (create_refresh_token defaultSettings 0 "u1" "j1").fst

/-- The persisted record behind `refreshJwt1` (session `sess`, window end at
30 days). -/
def refreshRec1 : RefreshToken :=
  { id := 1
    jti := "j1"
    token := refreshJwt1
    user_id := 1
    expires_at := (create_refresh_token defaultSettings 0 "u1" "j1").snd.snd
    session_id := "sess"
    parent_jti := none
    issued_at := 0
    last_used_at := 0
    revoked := false
    created_at := 0 }

/-- A store holding just `refreshRec1`. -/
def stateR : AppState := { users := [], refresh_tokens := [refreshRec1] }

/-- A registered user with password `Secret123`. -/
def alice : User :=
  { id := 1
    name := "Alice"
    mobile := "+14155550001"
    password_hash := hash_password "Secret123"
    age := none
    gender := none
    created_at := 0
    last_login_at := none
    last_activity_at := 0
    last_logout_at := none
    is_deleted := false }

/-- A store holding just `alice`. -/
def stateA : AppState := { users := [alice], refresh_tokens := [] }

/-- A valid access token whose subject is `alice`'s mobile. -/
def aliceAccess : Jwt := create_access_token defaultSettings 0 "+14155550001"

/-- A soft-deleted user. -/
def deletedUser : User :=
  { alice with id := 2, mobile := "+14155550002", is_deleted := true }

/-- A store holding just the soft-deleted user. -/
def stateDel : AppState := { users := [deletedUser], refresh_tokens := [] }

/-- A valid access token whose subject is the soft-deleted user's mobile. -/
def deletedAccess : Jwt := create_access_token defaultSettings 0 "+14155550002"

/-- A correctly signed token that expired at time 1. -/
def expiredJwt : Jwt :=
  jwt_encode defaultSettings.SECRET_KEY
    { sub := "s", type := "access", jti := none, iat := 0, exp := 1 }

/-- A token signed with the wrong secret. -/
def badSigJwt : Jwt :=
  jwt_encode "wrong-secret"
    { sub := "s", type := "access", jti := none, iat := 0, exp := 1000 }

/-! Helper lemmas. -/

theorem jwt_decode_ok {secret : String} {now : Nat} {t : Jwt} {p : JwtPayload}
    (h : jwt_decode secret now t = .ok p) :
    p = t.payload ∧ t.sig = secret ∧ now < t.payload.exp := by
  unfold jwt_decode at h
  split_ifs at h with hs he
  cases h
  exact ⟨rfl, hs, Nat.lt_of_not_le he⟩

theorem decode_token_ok {cfg : Settings} {now : Nat} {t : Jwt} {p : JwtPayload}
    (h : decode_token cfg now t = .ok p) :
    p = t.payload ∧ t.sig = cfg.SECRET_KEY ∧ now < t.payload.exp := by
  unfold decode_token at h
  cases hj : jwt_decode cfg.SECRET_KEY now t with
  | error e => rw [hj] at h; cases e <;> simp at h
  | ok q =>
    rw [hj] at h
    simp only [Except.ok.injEq] at h
    exact h ▸ jwt_decode_ok hj

theorem find?_map_revoke (now : Nat) (j : String) :
    ∀ (l : List RefreshToken) (r : RefreshToken),
      l.find? (fun x => x.jti == j) = some r →
      (l.map fun x =>
          if x.jti == r.jti then { x with revoked := true, last_used_at := now }
          else x).find? (fun x => x.jti == j) =
        some { r with revoked := true, last_used_at := now } := by
  intro l
  induction l with
  | nil => intro r h; simp at h
  | cons a t ih =>
    intro r h
    by_cases ha : (a.jti == j) = true
    · rw [List.find?_cons_of_pos (p := fun x : RefreshToken => x.jti == j) t ha] at h
      have har : a = r := by simpa using h
      subst har
      rw [List.map_cons]
      have hhead :
          (if (a.jti == a.jti) = true then
            { a with revoked := true, last_used_at := now } else a) =
          { a with revoked := true, last_used_at := now } := by simp
      rw [hhead]
      apply List.find?_cons_of_pos
      simpa using ha
    · rw [List.find?_cons_of_neg (p := fun x : RefreshToken => x.jti == j) t ha] at h
      have hrj : r.jti = j := by
        have := List.find?_some h
        simpa using this
      have haj : (a.jti == r.jti) = false := by
        rw [hrj]
        simpa using ha
      rw [List.map_cons]
      have hhead :
          (if (a.jti == r.jti) = true then
            { a with revoked := true, last_used_at := now } else a) = a := by
        rw [haj]
        simp
      rw [hhead]
      rw [List.find?_cons_of_neg (p := fun x : RefreshToken => x.jti == j) _ ha]
      exact ih r h

theorem refresh_decode_error {cfg : Settings} {s : AppState} {now : Nat}
    {fj : String} {tok : Jwt} {e : DecodeError}
    (hdec : decode_token cfg now tok = .error e) :
    refresh cfg s now fj tok = .error .refreshRejected := by
  unfold refresh
  rw [hdec]

theorem refresh_revoked_rejected {cfg : Settings} {s : AppState} {now : Nat}
    {fj : String} {tok : Jwt} {p : JwtPayload} {j : String} {r : RefreshToken}
    (hdec : decode_token cfg now tok = .ok p) (hj : p.jti = some j)
    (hfind : s.refresh_tokens.find? (fun x => x.jti == j) = some r)
    (hrev : r.revoked = true) :
    refresh cfg s now fj tok = .error .refreshRejected := by
  simp only [refresh, hdec, hj, hfind, hrev, if_true]

theorem refresh_ok_dissect {cfg : Settings} {s : AppState} {now : Nat}
    {fj : String} {tok : Jwt} {pair : TokenResponse} {s2 : AppState}
    (h : refresh cfg s now fj tok = .ok (pair, s2)) :
    ∃ j r, decode_token cfg now tok = .ok tok.payload ∧
      tok.payload.jti = some j ∧
      s.refresh_tokens.find? (fun x => x.jti == j) = some r ∧
      r.revoked = false ∧ now < r.expires_at ∧
      s2.refresh_tokens =
        (s.refresh_tokens.map fun x =>
          if x.jti == r.jti then { x with revoked := true, last_used_at := now }
          else x)
        ++ [{ id := s.refresh_tokens.length + 1
              jti := (create_refresh_token cfg now tok.payload.sub fj).snd.fst
              token := (create_refresh_token cfg now tok.payload.sub fj).fst
              user_id := r.user_id
              expires_at := (create_refresh_token cfg now tok.payload.sub fj).snd.snd
              session_id := r.session_id
              parent_jti := some r.jti
              issued_at := now
              last_used_at := now
              revoked := false
              created_at := now }] := by
  unfold refresh at h
  cases hdec : decode_token cfg now tok with
  | error e => rw [hdec] at h; simp at h
  | ok p =>
    rw [hdec] at h
    dsimp only at h
    obtain ⟨hp, _, _⟩ := decode_token_ok hdec
    subst hp
    cases hj : tok.payload.jti with
    | none => rw [hj] at h; simp at h
    | some j =>
      rw [hj] at h
      dsimp only at h
      cases hfind : s.refresh_tokens.find? (fun x => x.jti == j) with
      | none => rw [hfind] at h; simp at h
      | some r =>
        rw [hfind] at h
        dsimp only at h
        split_ifs at h with hrev hexp
        have hrev' : r.revoked = false := by
          revert hrev; cases r.revoked <;> simp
        cases h
        exact ⟨j, r, rfl, rfl, hfind, hrev', Nat.lt_of_not_le hexp, rfl⟩

theorem create_refresh_token_jti (cfg : Settings) (now : Nat) (sub jti : String) :
    (create_refresh_token cfg now sub jti).snd.fst = jti := rfl

theorem create_refresh_token_exp (cfg : Settings) (now : Nat) (sub jti : String) :
    (create_refresh_token cfg now sub jti).snd.snd =
      now + cfg.REFRESH_INACTIVITY_DAYS * secondsPerDay := rfl

theorem refresh_ok_second_rejected {cfg : Settings} {s : AppState}
    {now now2 : Nat} {j1 j2 : String} {tok : Jwt} {pair : TokenResponse}
    {s2 : AppState} (h : refresh cfg s now j1 tok = .ok (pair, s2)) :
    refresh cfg s2 now2 j2 tok = .error .refreshRejected := by
  obtain ⟨j, r, hdec, hj, hfind, _, _, hstate⟩ := refresh_ok_dissect h
  cases hdec2 : decode_token cfg now2 tok with
  | error e => exact refresh_decode_error hdec2
  | ok p2 =>
    obtain ⟨hp2, _, _⟩ := decode_token_ok hdec2
    subst hp2
    have hfind2 : s2.refresh_tokens.find? (fun x => x.jti == j) =
        some { r with revoked := true, last_used_at := now } := by
      rw [hstate, List.find?_append,
        find?_map_revoke now j s.refresh_tokens r hfind]
      rfl
    exact refresh_revoked_rejected hdec2 hj hfind2 rfl

/-- C1: a refresh token is single-use. If a `refresh` call on a store
succeeds, then a second `refresh` call with the same token, at any later
time and with any fresh `jti`, fails with `RefreshRejected`: the rotation
revoked the record the token points at, so the second call finds it already
revoked (or the token no longer decodes), and exactly one of the two calls
succeeds. -/
theorem refresh_single_use (cfg : Settings) (s : AppState) (now now2 : Nat)
    (j1 j2 : String) (tok : Jwt)
    (h : exOk (refresh cfg s now j1 tok) = true) :
    refresh cfg (refreshState s (refresh cfg s now j1 tok)) now2 j2 tok =
      .error .refreshRejected := by
  cases hc : refresh cfg s now j1 tok with
  | error e => rw [hc] at h; simp [exOk] at h
  | ok pr =>
    obtain ⟨pair, s2⟩ := pr
    exact refresh_ok_second_rejected hc

/-- Witness for C1: rotating `refreshJwt1` once succeeds, and presenting it
again is rejected. -/
theorem refresh_single_use_witness :
    refresh defaultSettings
        (refreshState stateR (refresh defaultSettings stateR 1 "j2" refreshJwt1))
        2 "j3" refreshJwt1 = .error .refreshRejected :=
  refresh_single_use defaultSettings stateR 1 2 "j2" "j3" refreshJwt1 (by rfl)

/-- C3: every successful rotation resets the sliding window from the time of
rotation: the newly created `RefreshTokenRecord` has
`expires_at = now + REFRESH_INACTIVITY_DAYS` days, independent of the old
record's expiry. -/
theorem refresh_resets_sliding_window (cfg : Settings) (s : AppState)
    (now : Nat) (fj : String) (tok : Jwt)
    (h : exOk (refresh cfg s now fj tok) = true) :
    ((refreshState s (refresh cfg s now fj tok)).refresh_tokens.getLast?).map
        (fun r => r.expires_at) =
      some (now + cfg.REFRESH_INACTIVITY_DAYS * secondsPerDay) := by
  cases hc : refresh cfg s now fj tok with
  | error e => rw [hc] at h; simp [exOk] at h
  | ok pr =>
    obtain ⟨pair, s2⟩ := pr
    obtain ⟨j, r, _, _, _, _, _, hstate⟩ := refresh_ok_dissect hc
    show (s2.refresh_tokens.getLast?.map fun r => r.expires_at) = _
    rw [hstate, List.getLast?_concat]
    rfl

/-- Witness for C3: with the default 30-day window, a rotation on day 29
(second 2505600) yields a record valid until `2505600 + 30` days — 30 more
days, not 1. -/
theorem refresh_resets_sliding_window_witness :
    ((refreshState stateR
          (refresh defaultSettings stateR 2505600 "j2" refreshJwt1)).refresh_tokens.getLast?).map
        (fun r => r.expires_at) =
      some (2505600 + 30 * 86400) :=
  refresh_resets_sliding_window defaultSettings stateR 2505600 "j2" refreshJwt1
    (by rfl)

theorem mem_map_session_revoked {l : List RefreshToken} {sid : String}
    {x : RefreshToken}
    (hx : x ∈ l.map fun y =>
      if y.session_id == sid then { y with revoked := true } else y)
    (hsx : x.session_id = sid) : x.revoked = true := by
  obtain ⟨y, hy, hxy⟩ := List.mem_map.mp hx
  by_cases hys : (y.session_id == sid) = true
  · rw [if_pos hys] at hxy
    rw [← hxy]
  · rw [if_neg hys] at hxy
    subst hxy
    exact absurd (by simpa using hsx) hys

theorem logout_resolved_state {cfg : Settings} {s : AppState} {now : Nat}
    {tok : Jwt} {p : JwtPayload} {j : String} {r : RefreshToken}
    (hdec : decode_token cfg now tok = .ok p) (hty : p.type = "refresh")
    (hj : p.jti = some j)
    (hfind : s.refresh_tokens.find? (fun x => x.jti == j) = some r) :
    (logout cfg s now tok).snd =
      { users := s.users.map fun u =>
          if u.id == r.user_id then { u with last_logout_at := some now } else u
        refresh_tokens := s.refresh_tokens.map fun x =>
          if x.session_id == r.session_id then { x with revoked := true }
          else x } := by
  simp only [logout, hdec, hty, hj, hfind, ne_eq, not_true_eq_false,
    if_false]

/-- C2: logout revokes the full session chain and is unconditionally
successful. When the presented refresh token resolves to a record `r`, every
record in the resulting store that shares `r.session_id` is revoked, and any
later `refresh` with a token resolving to a record of that session fails with
`RefreshRejected`; and `logout` returns `Ack` on every input whatsoever
(including a second call or an unresolvable token). -/
theorem logout_revokes_session (cfg : Settings) (s : AppState) (now : Nat)
    (tok : Jwt) (p : JwtPayload) (j : String) (r : RefreshToken)
    (hdec : decode_token cfg now tok = .ok p) (hty : p.type = "refresh")
    (hj : p.jti = some j)
    (hfind : s.refresh_tokens.find? (fun x => x.jti == j) = some r) :
    (∀ (s3 : AppState) (t3 : Nat) (tok3 : Jwt),
        (logout cfg s3 t3 tok3).fst = Ack.ack) ∧
    (∀ x ∈ (logout cfg s now tok).snd.refresh_tokens,
        x.session_id = r.session_id → x.revoked = true) ∧
    (∀ (now2 : Nat) (fj : String) (tok2 : Jwt) (p2 : JwtPayload) (j2 : String)
        (r2 : RefreshToken),
        decode_token cfg now2 tok2 = .ok p2 → p2.jti = some j2 →
        (logout cfg s now tok).snd.refresh_tokens.find?
          (fun x => x.jti == j2) = some r2 →
        r2.session_id = r.session_id →
        refresh cfg (logout cfg s now tok).snd now2 fj tok2 =
          .error .refreshRejected) := by
  refine ⟨fun s3 t3 tok3 => ?_, fun x hx hsx => ?_, ?_⟩
  · cases h3 : (logout cfg s3 t3 tok3).fst
    rfl
  · rw [logout_resolved_state hdec hty hj hfind] at hx
    exact mem_map_session_revoked hx hsx
  · intro now2 fj tok2 p2 j2 r2 hdec2 hj2 hfind2 hsid2
    have hmem : r2 ∈ (logout cfg s now tok).snd.refresh_tokens :=
      List.mem_of_find?_eq_some hfind2
    rw [logout_resolved_state hdec hty hj hfind] at hmem
    have hrev2 : r2.revoked = true := mem_map_session_revoked hmem hsid2
    exact refresh_revoked_rejected hdec2 hj2 hfind2 hrev2

/-- Witness for C2: after logging out with `refreshJwt1`, presenting
`refreshJwt1` again to `refresh` is rejected. -/
theorem logout_revokes_session_witness :
    refresh defaultSettings (logout defaultSettings stateR 1 refreshJwt1).snd
        2 "fj" refreshJwt1 = .error .refreshRejected :=
  (logout_revokes_session defaultSettings stateR 1 refreshJwt1
      refreshJwt1.payload "j1" refreshRec1 (by rfl) rfl rfl (by rfl)).2.2
    2 "fj" refreshJwt1 refreshJwt1.payload "j1"
    { refreshRec1 with revoked := true } (by rfl) rfl (by rfl) rfl

/-- C4: login with an unknown handle and login with a known handle but wrong
password produce the same observable error — the identical
`HTTPException 401 "Invalid credentials"` — so a caller cannot tell whether
the handle exists. -/
theorem login_enumeration_indistinguishable (s : AppState) (now : Nat)
    (req1 req2 : LoginRequest) (u : User)
    (h1 : s.users.find? (fun x => x.mobile == req1.mobile) = none)
    (h2 : s.users.find? (fun x => x.mobile == req2.mobile) = some u)
    (h3 : verify_password req2.password u.password_hash = false) :
    login s now req1 = .error ⟨401, "Invalid credentials"⟩ ∧
    login s now req2 = .error ⟨401, "Invalid credentials"⟩ := by
  constructor
  · simp only [login, h1]
  · simp [login, h2, h3]

/-- Witness for C4: in a store holding only `alice`, an unknown mobile and
`alice`'s mobile with a wrong password yield the same error value. -/
theorem login_enumeration_indistinguishable_witness :
    login stateA 5 ⟨"+19995550001", "x", "x"⟩ =
      .error ⟨401, "Invalid credentials"⟩ ∧
    login stateA 5 ⟨"+14155550001", "wrong", "wrong"⟩ =
      .error ⟨401, "Invalid credentials"⟩ :=
  login_enumeration_indistinguishable stateA 5 ⟨"+19995550001", "x", "x"⟩
    ⟨"+14155550001", "wrong", "wrong"⟩ alice (by rfl) (by rfl) (by rfl)

/-- C5 counterexample: `user_from_token` performs no soft-delete check. With
a valid access token for a soft-deleted identity it returns the identity
instead of failing with 401, refuting the claim that validation fails when
the identity is soft-deleted. -/
theorem user_from_token_returns_soft_deleted :
    deletedUser.is_deleted = true ∧
    user_from_token defaultSettings true 1 deletedAccess stateDel =
      .ok ({ deletedUser with last_activity_at := 1 },
           { stateDel with users := [{ deletedUser with last_activity_at := 1 }] }) :=
  ⟨rfl, by rfl⟩

/-- C5 amended: with a succeeding activity write, `user_from_token` fails
with `HTTPException 401 "Invalid or expired token"` exactly when the token
fails to decode, when its kind is not `access`, or when no identity matches
its subject; otherwise it returns the identity resolved by the token's
subject (with its activity timestamp bumped) — soft-deleted identities are
not rejected. -/
theorem user_from_token_spec (cfg : Settings) (now : Nat) (tok : Jwt)
    (s : AppState) :
    (∀ e, decode_token cfg now tok = .error e →
        user_from_token cfg true now tok s =
          .error ⟨401, "Invalid or expired token"⟩) ∧
    (∀ p, decode_token cfg now tok = .ok p → p.type ≠ "access" →
        user_from_token cfg true now tok s =
          .error ⟨401, "Invalid or expired token"⟩) ∧
    (∀ p, decode_token cfg now tok = .ok p → p.type = "access" →
        s.users.find? (fun x => x.mobile == p.sub) = none →
        user_from_token cfg true now tok s =
          .error ⟨401, "Invalid or expired token"⟩) ∧
    (∀ p u, decode_token cfg now tok = .ok p → p.type = "access" →
        s.users.find? (fun x => x.mobile == p.sub) = some u →
        user_from_token cfg true now tok s =
          .ok ({ u with last_activity_at := now },
               { s with users := s.users.map fun x =>
                   if x.id == u.id then { x with last_activity_at := now }
                   else x })) := by
  refine ⟨fun e he => ?_, fun p hdec hty => ?_, fun p hdec hty hfind => ?_,
    fun p u hdec hty hfind => ?_⟩
  · simp only [user_from_token, he]
  · simp only [user_from_token, hdec]
    rw [if_pos hty]
  · simp only [user_from_token, hdec]
    rw [if_neg (by simp [hty])]
    simp only [hfind]
  · simp only [user_from_token, hdec]
    rw [if_neg (by simp [hty])]
    simp only [hfind, if_true]

/-- Witness for C5 (amended): the success branch applies even to the
soft-deleted user, returning it rather than 401. -/
theorem user_from_token_spec_witness :
    user_from_token defaultSettings true 1 deletedAccess stateDel =
      .ok ({ deletedUser with last_activity_at := 1 },
           { stateDel with users := stateDel.users.map fun x =>
               if x.id == deletedUser.id then { x with last_activity_at := 1 }
               else x }) :=
  (user_from_token_spec defaultSettings 1 deletedAccess stateDel).2.2.2
    deletedAccess.payload deletedUser (by rfl) rfl (by rfl)

/-- C6: `decode_token` either returns the token's payload (subject, kind,
optional jti, issued-at, expiry) or fails with exactly one of two
distinguishable kinds: `InvalidToken` when the signature does not match and
`ExpiredToken` when a validly signed token is past its expiry; the two
failure values — and the `ValueError` messages they carry — differ, so
callers can tell them apart. -/
theorem decode_token_two_failure_kinds (cfg : Settings) (now : Nat)
    (t : Jwt) :
    (t.sig ≠ cfg.SECRET_KEY →
        decode_token cfg now t = .error .invalidToken) ∧
    (t.sig = cfg.SECRET_KEY → t.payload.exp ≤ now →
        decode_token cfg now t = .error .expiredToken) ∧
    (t.sig = cfg.SECRET_KEY → now < t.payload.exp →
        decode_token cfg now t = .ok t.payload) ∧
    DecodeError.expiredToken ≠ DecodeError.invalidToken ∧
    DecodeError.message .expiredToken ≠ DecodeError.message .invalidToken := by
  refine ⟨fun hs => ?_, fun hs he => ?_, fun hs he => ?_, by decide, by decide⟩
  · simp only [decode_token, jwt_decode, if_neg hs]
  · simp only [decode_token, jwt_decode, if_pos hs, if_pos he]
  · simp only [decode_token, jwt_decode, if_pos hs,
      if_neg (Nat.not_le_of_lt he)]

/-- Witness for C6: a wrong-secret token yields `InvalidToken`, the same
expired token yields `ExpiredToken` after expiry and its payload before. -/
theorem decode_token_two_failure_kinds_witness :
    decode_token defaultSettings 5 badSigJwt = .error .invalidToken ∧
    decode_token defaultSettings 5 expiredJwt = .error .expiredToken ∧
    decode_token defaultSettings 0 expiredJwt = .ok expiredJwt.payload :=
  ⟨(decode_token_two_failure_kinds defaultSettings 5 badSigJwt).1 (by decide),
   (decode_token_two_failure_kinds defaultSettings 5 expiredJwt).2.1 rfl
     (by decide),
   (decode_token_two_failure_kinds defaultSettings 0 expiredJwt).2.2.1 rfl
     (by decide)⟩

/-- C7 counterexample: with a valid access token of an existing identity,
`user_from_token` succeeds when the activity write succeeds but fails with
401 when the same write fails — the `db.commit()` sits inside the guarded
block, so a write failure does fail the validate call, refuting the claim. -/
theorem activity_write_failure_observed :
    exOk (user_from_token defaultSettings true 1 aliceAccess stateA) = true ∧
    user_from_token defaultSettings false 1 aliceAccess stateA =
      .error ⟨401, "Invalid or expired token"⟩ :=
  ⟨by rfl, by rfl⟩

/-- C7 amended: a failure of the `last_activity_at` write causes the
validate call itself to fail: even with a decodable access token whose
subject resolves to an identity, `user_from_token` returns
`HTTPException 401 "Invalid or expired token"` when the commit fails. -/
theorem activity_write_failure_fails_validate (cfg : Settings) (now : Nat)
    (tok : Jwt) (s : AppState) (p : JwtPayload) (u : User)
    (hdec : decode_token cfg now tok = .ok p) (hty : p.type = "access")
    (hfind : s.users.find? (fun x => x.mobile == p.sub) = some u) :
    user_from_token cfg false now tok s =
      .error ⟨401, "Invalid or expired token"⟩ := by
  simp only [user_from_token, hdec]
  rw [if_neg (by simp [hty])]
  simp only [hfind]
  rfl

/-- Witness for C7 (amended): `alice`'s valid token still yields 401 when
the activity write fails. -/
theorem activity_write_failure_fails_validate_witness :
    user_from_token defaultSettings false 1 aliceAccess stateA =
      .error ⟨401, "Invalid or expired token"⟩ :=
  activity_write_failure_fails_validate defaultSettings 1 aliceAccess stateA
    aliceAccess.payload alice (by rfl) rfl (by rfl)

theorem find?_map_insert (k v : Nat) :
    ∀ l : List (Nat × Nat), l.any (fun p => p.fst == k) = true →
      (l.map fun p => if p.fst == k then (k, v) else p).find?
        (fun p => p.fst == k) = some (k, v) := by
  intro l
  induction l with
  | nil => intro h; simp at h
  | cons a t ih =>
    intro h
    by_cases ha : (a.fst == k) = true
    · rw [List.map_cons, if_pos ha]
      exact List.find?_cons_of_pos _ (by simp)
    · rw [List.map_cons, if_neg ha]
      rw [List.find?_cons_of_neg (p := fun p : Nat × Nat => p.fst == k) _ ha]
      apply ih
      rw [List.any_cons] at h
      rcases Bool.or_eq_true_iff.mp h with h' | h'
      · exact absurd h' ha
      · exact h'

theorem dictGet_insert (l : List (Nat × Nat)) (k v : Nat) :
    dictGet (dictInsert l k v) k = some v := by
  by_cases hany : l.any (fun p => p.fst == k) = true
  · unfold dictInsert dictGet
    rw [if_pos hany, find?_map_insert k v l hany]
    rfl
  · unfold dictInsert dictGet
    rw [if_neg hany, List.find?_append]
    have hnone : l.find? (fun p => p.fst == k) = none := by
      rw [List.find?_eq_none]
      intro x hx
      exact fun hk =>
        hany (List.any_eq_true.mpr ⟨x, hx, hk⟩)
    rw [hnone]
    simp

theorem keys_insert (l : List (Nat × Nat)) (k v : Nat) :
    (dictInsert l k v).map Prod.fst =
      if l.any (fun p => p.fst == k) then l.map Prod.fst
      else l.map Prod.fst ++ [k] := by
  by_cases hany : l.any (fun p => p.fst == k) = true
  · rw [if_pos hany]
    unfold dictInsert
    rw [if_pos hany, List.map_map]
    apply List.map_congr_left
    intro p hp
    by_cases hpk : (p.fst == k) = true
    · simp only [Function.comp_apply, if_pos hpk]
      exact (beq_iff_eq.mp hpk).symm
    · simp only [Function.comp_apply, if_neg hpk]
  · rw [if_neg hany]
    unfold dictInsert
    rw [if_neg hany, List.map_append]
    rfl

/-- C8: the Connection Registry keeps at most one live channel per identity.
`connect` is last-connect-wins (after connecting the same identity twice a
send reaches only the second channel, never the first), `disconnect` of an
absent identity is a no-op, `send_personal` no-ops when the identity has no
channel, and both `connect` and `disconnect` preserve the one-entry-per-key
shape of the map. -/
theorem connection_registry_spec (m : ConnectionManager) (uid ws1 ws2 : Nat) :
    send_personal (connect (connect m ws1 uid) ws2 uid) uid = some ws2 ∧
    (ws1 ≠ ws2 →
      send_personal (connect (connect m ws1 uid) ws2 uid) uid ≠ some ws1) ∧
    (dictGet m.active uid = none → disconnect m uid = m) ∧
    (dictGet m.active uid = none → send_personal m uid = none) ∧
    ((m.active.map Prod.fst).Nodup →
      ((connect m ws2 uid).active.map Prod.fst).Nodup ∧
      ((disconnect m uid).active.map Prod.fst).Nodup) := by
  have hsend : send_personal (connect (connect m ws1 uid) ws2 uid) uid =
      some ws2 := by
    unfold send_personal connect
    rw [dictGet_insert]
  refine ⟨hsend, fun hne heq => ?_, fun hnone => ?_, fun hnone => ?_,
    fun hnodup => ⟨?_, ?_⟩⟩
  · rw [hsend] at heq
    exact hne (Option.some.injEq _ _ ▸ heq).symm
  · have hfnone : m.active.find? (fun p => p.fst == uid) = none := by
      cases hf : m.active.find? (fun p => p.fst == uid) with
      | none => rfl
      | some a =>
        unfold dictGet at hnone
        rw [hf] at hnone
        cases hnone
    have hfilter : (m.active.filter fun p => !(p.fst == uid)) = m.active := by
      rw [List.filter_eq_self]
      intro a ha
      have := List.find?_eq_none.mp hfnone a ha
      simp only [Bool.not_eq_true'] at this ⊢
      simp [this]
    cases m with
    | mk act => simp only [disconnect] at *; rw [hfilter]
  · unfold send_personal
    rw [hnone]
  · show ((dictInsert m.active uid ws2).map Prod.fst).Nodup
    rw [keys_insert]
    by_cases hany : m.active.any (fun p => p.fst == uid) = true
    · rw [if_pos hany]; exact hnodup
    · rw [if_neg hany]
      rw [List.nodup_append]
      refine ⟨hnodup, List.nodup_singleton uid, ?_⟩
      intro a ha hb
      have hauid : a = uid := by simpa using hb
      subst hauid
      obtain ⟨p, hp, hpa⟩ := List.mem_map.mp ha
      exact hany (List.any_eq_true.mpr ⟨p, hp, by simp [hpa]⟩)
  · exact List.Nodup.sublist
      ((List.filter_sublist m.active).map Prod.fst) hnodup

/-- Witness for C8: in a registry holding channel 5 for identity 3,
connecting identity 7 twice (channels 10 then 20) delivers to 20 only;
disconnect and send for the unregistered identity 7 are no-ops; and the
registry shape is preserved. -/
theorem connection_registry_spec_witness :
    send_personal (connect (connect ⟨[(3, 5)]⟩ 10 7) 20 7) 7 = some 20 ∧
    send_personal (connect (connect ⟨[(3, 5)]⟩ 10 7) 20 7) 7 ≠ some 10 ∧
    disconnect ⟨[(3, 5)]⟩ 7 = (⟨[(3, 5)]⟩ : ConnectionManager) ∧
    send_personal ⟨[(3, 5)]⟩ 7 = none ∧
    (((connect (⟨[(3, 5)]⟩ : ConnectionManager) 20 7).active.map
        Prod.fst).Nodup ∧
     ((disconnect (⟨[(3, 5)]⟩ : ConnectionManager) 7).active.map
        Prod.fst).Nodup) :=
  ⟨(connection_registry_spec ⟨[(3, 5)]⟩ 7 10 20).1,
   (connection_registry_spec ⟨[(3, 5)]⟩ 7 10 20).2.1 (by decide),
   (connection_registry_spec ⟨[(3, 5)]⟩ 7 10 20).2.2.1 (by rfl),
   (connection_registry_spec ⟨[(3, 5)]⟩ 7 10 20).2.2.2.1 (by rfl),
   (connection_registry_spec ⟨[(3, 5)]⟩ 7 10 20).2.2.2.2 (by decide)⟩

/-- C9: the public login route carries a third field `confirm_password`, and
every request whose confirmation differs from the password is rejected with
a 422 validation error before any credential verification: the outcome is
the same for every store, so the user table is never consulted. -/
theorem login_requires_password_confirmation (s s2 : AppState) (now : Nat)
    (mobile password confirm_password : String)
    (h : confirm_password ≠ password) :
    ∃ msg,
      login_route s now mobile password confirm_password =
        .error ⟨422, msg⟩ ∧
      login_route s2 now mobile password confirm_password =
        .error ⟨422, msg⟩ := by
  unfold login_route validate_LoginRequest
  by_cases hE : isE164 (pyStrip mobile) = false
  · refine ⟨"mobile must be E.164 like +14155552671", ?_, ?_⟩ <;>
      simp [hE]
  · refine ⟨"confirm_password must match password", ?_, ?_⟩ <;>
      simp [hE, h]

/-- Witness for C9: a mismatching confirmation is rejected identically over
a populated store and an empty store. -/
theorem login_requires_password_confirmation_witness :
    ∃ msg,
      login_route stateA 5 "+14155550001" "Secret123" "Different1" =
        .error ⟨422, msg⟩ ∧
      login_route ⟨[], []⟩ 5 "+14155550001" "Secret123" "Different1" =
        .error ⟨422, msg⟩ :=
  login_requires_password_confirmation stateA ⟨[], []⟩ 5 "+14155550001"
    "Secret123" "Different1" (by decide)

/-- C10: a successful login writes no `RefreshTokenRecord`: the
`refresh_tokens` table is left exactly as it was, and the refresh token
returned by login carries no `jti` claim, so no issued refresh token has a
persisted record. -/
theorem login_leaves_refresh_store_unchanged (s : AppState) (now : Nat)
    (req : LoginRequest) (h : exOk (login s now req) = true) :
    (loginState s (login s now req)).refresh_tokens = s.refresh_tokens ∧
    (loginResp (login s now req)).map
        (fun tr => tr.refresh_token.payload.jti) = some none := by
  cases hfind : s.users.find? (fun x => x.mobile == req.mobile) with
  | none => rw [login, hfind] at h; simp [exOk] at h
  | some u =>
    by_cases hv : verify_password req.password u.password_hash = true
    · constructor
      · simp [login, hfind, hv, loginState]
      · simp [login, hfind, hv, loginResp, make_refresh_token, jwt_encode]
    · rw [login, hfind] at h
      dsimp only at h
      rw [if_neg hv] at h
      simp [exOk] at h

/-- Witness for C10: `alice` logs in successfully; the refresh-token table
is unchanged and the returned refresh token has no `jti`. -/
theorem login_leaves_refresh_store_unchanged_witness :
    (loginState stateA
        (login stateA 5 ⟨"+14155550001", "Secret123", "Secret123"⟩)).refresh_tokens =
      stateA.refresh_tokens ∧
    (loginResp (login stateA 5 ⟨"+14155550001", "Secret123", "Secret123"⟩)).map
        (fun tr => tr.refresh_token.payload.jti) = some none :=
  login_leaves_refresh_store_unchanged stateA 5
    ⟨"+14155550001", "Secret123", "Secret123"⟩ (by rfl)

end ChatServer
